import Mathlib

/-!
Verification development for the db2 repository: a shallow embedding of the
envelope-encryption demos and key-management flows described in the design
documents and demonstrated in src/js/a.js and src/BASIC_ENCRYPTION_CODE.md.

Bytes are modelled as natural numbers (values kept below 256 where the code
draws random bytes), byte strings as lists of naturals.  Randomness (node
crypto.randomBytes, WebCrypto getRandomValues, generateKey) is modelled as an
explicit entropy tape with a cursor, threaded through every operation that
draws random bytes.  AES-256-GCM is a library primitive, not repository code;
it is modelled structurally as what GCM is: a keystream XOR (CTR mode) for
confidentiality plus an authentication tag over key, nonce and ciphertext,
with the tag modelled as an ideal message-authentication code (injective in
nonce and ciphertext, compressive in the key).  PBKDF2-SHA256 is likewise a
library primitive and is modelled as an ideal deterministic key-derivation
function of (password, salt, iterations, length).
-/

namespace Db2

/-- Error kinds of the design (spec section 7); only the ones the embedded
flows can produce are listed. -/
inductive CryptoError where
  | AuthenticationFailure
  | InvalidSalt
  | InvalidIterationCount
  | PermissionDenied
  | KeyNotFound
deriving DecidableEq, Repr

/-- Entropy source: an infinite tape of raw values and a cursor.  Each call
that draws n random bytes reads n tape cells (reduced mod 256) and advances
the cursor, so successive draws come from disjoint stretches of the tape. -/
structure RNG where
  tape : Nat → Nat
  pos : Nat

/-- The n bytes of the tape starting at position pos. -/
def tapeSlice (t : Nat → Nat) (pos n : Nat) : List Nat :=
  (List.range n).map (fun i => t (pos + i) % 256)

/-- crypto.randomBytes(n) / crypto.getRandomValues(new Uint8Array(n)):
read n fresh bytes off the entropy tape. -/
def randomBytes (n : Nat) (g : RNG) : List Nat × RNG :=
  (tapeSlice g.tape g.pos n, ⟨g.tape, g.pos + n⟩)

/-- Modelled from the spec: the PBKDF2-SHA256 primitive invoked by
crypto.pbkdf2Sync in src/js/a.js and by the WebCrypto PBKDF2 deriveKey call
in src/BASIC_ENCRYPTION_CODE.md.  The primitive itself is library code, not
repository code; it is modelled as an ideal deterministic derivation
producing len bytes from (password, salt, iterations). -/
def pbkdf2 (password salt : List Nat) (iterations len : Nat) : List Nat :=
  (List.range len).map (fun i =>
    (password.foldl (fun a b => a * 31 + b + 1) 7 +
     salt.foldl (fun a b => a * 131 + b + 1) 11 +
     iterations * 17 + i * 29) % 256)

/-- One keystream byte of the modelled AES-256-GCM counter mode, a function
of key, nonce and position. -/
def ksByte (key nonce : List Nat) (i : Nat) : Nat :=
  (key.foldl (fun a b => a * 37 + b + 1) 5 +
   nonce.foldl (fun a b => a * 41 + b + 1) 3 + i * 97 + 13) % 256

/-- CTR-mode keystream XOR starting at counter position i; its own inverse
for a fixed key, nonce and starting position. -/
def ctr (key nonce : List Nat) : Nat → List Nat → List Nat
  | _, [] => []
  | i, b :: bs => (b ^^^ ksByte key nonce i) :: ctr key nonce (i + 1) bs

/-- Compressive digest of the key entering the authentication tag: the tag
must depend on the key (a wrong key fails verification in GCM) without the
tag bytes containing the key in recoverable form. -/
def tagKeyDigest (key : List Nat) : Nat :=
  (key.foldl (fun a b => a * 131 + b + 17) 23) % (2 ^ 64)

/-- Modelled from the spec: the GCM authentication tag, as an ideal MAC over
(key, nonce, ciphertext): collision-free in nonce and ciphertext, so that any
modification of either is detected, and compressive in the key. -/
def gcmTag (key nonce c : List Nat) : List Nat :=
  tagKeyDigest key :: nonce.length :: (nonce ++ c)

/-- Modelled from the spec: AEADCipherEngine.seal with an explicit nonce
(the internal core shared by both demo encrypt functions): CTR encryption
plus authentication tag. -/
def sealCore (key nonce data : List Nat) : List Nat × List Nat :=
  let c := ctr key nonce 0 data
  (c, gcmTag key nonce c)

/-- Modelled from the spec: AEADCipherEngine.open — verifies the tag and,
only when verification succeeds, returns the decrypted payload; on any tag
mismatch it fails with AuthenticationFailure and returns nothing. -/
def openSealed (key nonce c tag : List Nat) : Except CryptoError (List Nat) :=
  if tag = gcmTag key nonce c then .ok (ctr key nonce 0 c)
  else .error .AuthenticationFailure

/-- A sealed output: nonce, ciphertext, tag. -/
structure Sealed where
  nonce : List Nat
  ct : List Nat
  tag : List Nat

/-- Modelled from the spec: AEADCipherEngine.seal(key, plaintext) — draws a
fresh 12-byte random nonce internally (never caller-supplied) and seals. -/
def sealFresh (key data : List Nat) (g : RNG) : Sealed × RNG :=
  let r := randomBytes 12 g
  let s := sealCore key r.1 data
  (⟨r.1, s.1, s.2⟩, r.2)

/-- Byte-string content of a source string literal (ASCII in every literal of
the demos, so code points coincide with UTF-8 bytes). -/
def strBytes (s : String) : List Nat :=
  s.toList.map Char.toNat

/-! ## src/js/a.js -/

/-- a.js dummy data: the private deed plaintext. -/
def privateDeed : List Nat := strBytes "My secret good deed entry"

def userId : String := "user123"

def friendId : String := "friend456"

def userPassword : List Nat := strBytes "userPassword123!"

def friendPassword : List Nat := strBytes "friendPassword456!"

/-- Result of a.js deriveKey: the derived 32-byte key and the salt used. -/
structure DerivedKey where
  key : List Nat
  salt : List Nat

/-- a.js deriveKey with a caller-supplied salt: crypto.pbkdf2Sync(password,
salt, 100000, 32, sha256).  No validation of the salt is performed and the
iteration count is fixed. -/
def deriveKeyWithSalt (password salt : List Nat) : List Nat :=
  pbkdf2 password salt 100000 32

/-- a.js deriveKey(password, salt = null): when no salt is supplied a fresh
random 16-byte salt is drawn; then pbkdf2Sync with 100000 iterations and a
32-byte output.  The function cannot fail: any salt of any length yields a
key. -/
def deriveKey (password : List Nat) (salt : Option (List Nat)) (g : RNG) :
    DerivedKey × RNG :=
  match salt with
  | none =>
      let r := randomBytes 16 g
      (⟨deriveKeyWithSalt password r.1, r.1⟩, r.2)
  | some s => (⟨deriveKeyWithSalt password s, s⟩, g)

/-- Output of a.js encrypt: encryptedData, iv and auth tag (kept as byte
lists; the JS demo hex-encodes them for storage, a bijective re-coding the
model elides). -/
structure EncryptedObj where
  encryptedData : List Nat
  iv : List Nat
  tag : List Nat

/-- a.js encrypt(data, key): draws iv = crypto.randomBytes(16) — sixteen
bytes, not twelve — then AES-256-GCM under (key, iv). -/
def encrypt (data key : List Nat) (g : RNG) : EncryptedObj × RNG :=
  let r := randomBytes 16 g
  let s := sealCore key r.1 data
  (⟨s.1, r.1, s.2⟩, r.2)

/-- a.js decrypt(encryptedObj, key): AES-256-GCM decryption with tag
verification; throws (modelled as Except.error) when the tag fails. -/
def decrypt (e : EncryptedObj) (key : List Nat) : Except CryptoError (List Nat) :=
  openSealed key e.iv e.encryptedData e.tag

/-- One entry of a.js shared_with: the friend id and — directly, marked
dummy in the source — the symmetric key itself. -/
structure SharedWith where
  friend_id : String
  shared_key : List Nat

/-- a.js deedRecord: the stored deed row. -/
structure DeedRecord where
  deed_id : String
  owner_id : String
  encrypted_data : List Nat
  iv : List Nat
  auth_tag : List Nat
  salt : List Nat
  shared_with : List SharedWith

/-- a.js simulated DB. -/
structure DB where
  deeds : List DeedRecord

/-- a.js cycle 1: the user derives a key from the password (fresh salt),
encrypts the deed, builds deedRecord — whose shared_with entry holds the
symmetric key directly — and pushes it into the DB. -/
def ajsCycle1 (g : RNG) : DB × RNG :=
  let r1 := deriveKey userPassword none g
  let r2 := encrypt privateDeed r1.1.key r1.2
  let deedRecord : DeedRecord :=
    { deed_id := "deed001"
      owner_id := userId
      encrypted_data := r2.1.encryptedData
      iv := r2.1.iv
      auth_tag := r2.1.tag
      salt := r1.1.salt
      shared_with := [{ friend_id := friendId, shared_key := r1.1.key }] }
  (⟨[deedRecord]⟩, r2.2)

/-- a.js cycle 2, friendDecrypted: the friend reads db.deeds[0], takes the
shared key from shared_with[0], and decrypts the stored ciphertext with it.
No permission or relation check of any kind occurs. -/
def friendDecrypted (d : DB) : Option (Except CryptoError (List Nat)) := do
  let r ← d.deeds[0]?
  let sw ← r.shared_with[0]?
  return decrypt ⟨r.encrypted_data, r.iv, r.auth_tag⟩ sw.shared_key

/-- a.js cycle 2 as a function of the friend credential: the script binds
friendPassword but never uses it in the decryption path (it is only
printed). -/
def ajsCycle2 (fp : List Nat) (d : DB) : Option (Except CryptoError (List Nat)) :=
  let _friendPw := fp
  friendDecrypted d

/-- a.js cycle 3, userKeyAgain: the user re-derives the key from the stored
salt of db.deeds[0]. -/
def userKeyAgain (d : DB) : Option (List Nat) := do
  let r ← d.deeds[0]?
  return deriveKeyWithSalt userPassword r.salt

/-- a.js cycle 3, userDecrypted: the user decrypts the stored record with
the re-derived key. -/
def userDecrypted (d : DB) : Option (Except CryptoError (List Nat)) := do
  let r ← d.deeds[0]?
  let k ← userKeyAgain d
  return decrypt ⟨r.encrypted_data, r.iv, r.auth_tag⟩ k

/-! ## src/BASIC_ENCRYPTION_CODE.md -/

/-- Output of encryptAES in the envelope demo.  WebCrypto subtle.encrypt
returns the ciphertext with the GCM tag appended; since the ideal tag of the
model is not a fixed 16 bytes, the two components of that concatenation are
kept as separate fields. -/
structure AESOut where
  iv : List Nat
  cipher : List Nat
  tag : List Nat

/-- passwordToKey(password, salt): PBKDF2, 100000 iterations, SHA-256, into
a 256-bit AES-GCM key. -/
def passwordToKey (password salt : List Nat) : List Nat :=
  pbkdf2 password salt 100000 32

/-- encryptAES(key, data): draws iv = getRandomValues(new Uint8Array(12)) —
a fresh 12-byte nonce per call, never caller-supplied — and AES-GCM
encrypts. -/
def encryptAES (key data : List Nat) (g : RNG) : AESOut × RNG :=
  let r := randomBytes 12 g
  let s := sealCore key r.1 data
  (⟨r.1, s.1, s.2⟩, r.2)

/-- decryptAES(key, encrypted): AES-GCM decryption with tag verification. -/
def decryptAES (key : List Nat) (e : AESOut) : Except CryptoError (List Nat) :=
  openSealed key e.iv e.cipher e.tag

/-- The envelope demo passwords and deed. -/
def ownerPassword : List Nat := strBytes "hashir-password"

def aliPassword : List Nat := strBytes "ali-password"

def basicDeed : List Nat := strBytes "Gave charity secretly"

/-- All values produced by the KITAB FLOW of the envelope demo, in source
order. -/
structure BasicRun where
  rawDEK : List Nat
  encryptedDeed : AESOut
  ownerSalt : List Nat
  ownerKey : List Nat
  encDEKOwner : AESOut
  friendSalt : List Nat
  friendKey : List Nat
  encDEKFriend : AESOut

/-- The KITAB FLOW of the envelope demo, parametrised by the two passwords
and the deed plaintext (bound to fixed literals in the source): generate a
random 256-bit DEK, encrypt the deed under the DEK, derive the owner KEK
and wrap the raw DEK under it, then derive the friend KEK and wrap the same
raw DEK under it. -/
def basicFlow (ownerPw friendPw deed : List Nat) (g : RNG) : BasicRun :=
  let r0 := randomBytes 32 g
  let r1 := encryptAES r0.1 deed r0.2
  let r2 := randomBytes 16 r1.2
  let ownerKey := passwordToKey ownerPw r2.1
  let r3 := encryptAES ownerKey r0.1 r2.2
  let r4 := randomBytes 16 r3.2
  let friendKey := passwordToKey friendPw r4.1
  let r5 := encryptAES friendKey r0.1 r4.2
  { rawDEK := r0.1
    encryptedDeed := r1.1
    ownerSalt := r2.1
    ownerKey := ownerKey
    encDEKOwner := r3.1
    friendSalt := r4.1
    friendKey := friendKey
    encDEKFriend := r5.1 }

/-- OWNER DECRYPTS: re-derive the owner KEK from the password and salt,
unwrap the DEK row. -/
def ownerDEKRaw (ownerPw : List Nat) (br : BasicRun) : Except CryptoError (List Nat) :=
  decryptAES (passwordToKey ownerPw br.ownerSalt) br.encDEKOwner

/-- FRIEND DECRYPTS: re-derive the friend KEK, unwrap the friend DEK row. -/
def friendDEKRaw (friendPw : List Nat) (br : BasicRun) : Except CryptoError (List Nat) :=
  decryptAES (passwordToKey friendPw br.friendSalt) br.encDEKFriend

/-- WHAT SERVER STORES: the envelope demo DB object — ciphertext plus one
wrapped-DEK row per user; nothing else. -/
structure DBStore where
  ciphertext : AESOut
  keyRows : List (String × AESOut)

/-- DB state at item creation: the ciphertext and the owner wrapped-DEK row
(per the sharing walkthrough of the client-side-encryption document:
encrypted_data one row, encrypted_keys one row for the owner). -/
def createdStore (br : BasicRun) : DBStore :=
  ⟨br.encryptedDeed, [("owner", br.encDEKOwner)]⟩

/-- The sharing operation on the store, per the client-side-encryption
document: sharing appends a NEW wrapped-DEK row for the grantee and leaves
the encrypted_data row untouched (SAME row, NOT changed). -/
def shareRow (db : DBStore) (uid : String) (row : AESOut) : DBStore :=
  { db with keyRows := db.keyRows ++ [(uid, row)] }

/-- DB state after the demo shares with the friend. -/
def sharedStore (br : BasicRun) : DBStore :=
  shareRow (createdStore br) "friend" br.encDEKFriend

/-! ## src/DEED_ENCRYPTION_STRATEGY.md — access-control flow

The strategy document gives the friend read flow get_friend_deed_key in
executable pseudocode: (1) verify an active read permission, raising
PermissionError when absent, (2) derive the friend master key from the
password, (3) fetch the encrypted deed key row, raising PermissionError when
absent, (4) decrypt the shared deed key.  To reason about the order of
operations, each flow is instrumented with an event trace listing the
operations it performs, in program order. -/

/-- Operations of a read flow, in the order the code performs them. -/
inductive AccessEvent where
  | permCheck (allowed : Bool)
  | deriveUserKey
  | readWrappedRow
  | unwrapDek
  | decryptData
deriving DecidableEq, Repr

/-- derive_user_master_key(user_id, password, salt): PBKDF2-SHA256 with
100000 iterations. -/
def derive_user_master_key (password salt : List Nat) : List Nat :=
  pbkdf2 password salt 100000 32

/-- A deed_encryption_keys row: the wrapped deed key and its derivation
salt.  The documents store nonce-prefixed ciphertext; the model keeps the
components structured. -/
structure EncKeyRecord where
  encrypted_deed_key : AESOut
  key_derivation_salt : List Nat

/-- get_friend_deed_key, instrumented: permission lookup result, friend
salt and password, and the key-row lookup result are the data the flow
reads; the returned trace lists the operations executed in order.  Both
failure paths raise PermissionError in the source (messages "No permission
to access this deed" and "Shared deed key not found"). -/
def get_friend_deed_key (perm : Option Unit) (friendSalt friendPw : List Nat)
    (keyRecord : Option EncKeyRecord) :
    Except CryptoError (List Nat) × List AccessEvent :=
  match perm with
  | none => (.error .PermissionDenied, [.permCheck false])
  | some _ =>
      let masterKey := derive_user_master_key friendPw friendSalt
      match keyRecord with
      | none => (.error .PermissionDenied, [.permCheck true, .deriveUserKey,
                                            .readWrappedRow])
      | some kr =>
          (decryptAES masterKey kr.encrypted_deed_key,
           [.permCheck true, .deriveUserKey, .readWrappedRow, .unwrapDek])

/-- The a.js friend read flow (cycle 2), instrumented the same way: read
the shared-key row, then decrypt; the script contains no permission check
of any kind. -/
def ajsFriendFlow (d : DB) : Option (Except CryptoError (List Nat)) × List AccessEvent :=
  match d.deeds[0]? with
  | none => (none, [])
  | some r =>
      match r.shared_with[0]? with
      | none => (none, [.readWrappedRow])
      | some sw =>
          (some (decrypt ⟨r.encrypted_data, r.iv, r.auth_tag⟩ sw.shared_key),
           [.readWrappedRow, .decryptData])

/-- Is an event a decryption or unwrap of stored material. -/
def isDecrypting : AccessEvent → Bool
  | .unwrapDek => true
  | .decryptData => true
  | _ => false

/-- Is an event a gate consultation that returned Allow. -/
def isAllow : AccessEvent → Bool
  | .permCheck true => true
  | _ => false

/-! ## Spec-level key derivation -/

/-- Modelled from the spec: KeyDerivationService.deriveKEK(credential, salt,
iterations) producing a 256-bit key; realized in src by deriveKey and
passwordToKey, both with the iteration count fixed at 100000. -/
def deriveKEK (credential salt : List Nat) (iterations : Nat) : List Nat :=
  pbkdf2 credential salt iterations 32

/-! ## Concrete inputs for witnesses and counterexamples -/

/-- A concrete entropy tape. -/
def tape0 : Nat → Nat := fun i => (i * 7 + 3) % 256

/-- A concrete entropy source at position 0. -/
def g0 : RNG := ⟨tape0, 0⟩

/-- A fixed 16-byte salt for the determinism test vector. -/
def salt16 : List Nat := List.range 16

/-- A concrete 8-byte (hence invalid per the spec) salt. -/
def salt8 : List Nat := [1, 2, 3, 4, 5, 6, 7, 8]

/-- Flip bit j of the byte at index i (out-of-range indices leave the list
unchanged in the proofs, which always carry an in-range hypothesis). -/
def flipBit (bs : List Nat) (i j : Nat) : List Nat :=
  bs.set i ((bs.getD i 0) ^^^ 2 ^ j)

/-- Gate discipline over an instrumented trace: scanning left to right,
every unwrap or data-decryption event must come strictly after some gate
consultation that returned Allow. -/
def gateDiscipline : Bool → List AccessEvent → Bool
  | _, [] => true
  | allowed, e :: es =>
      match e with
      | .permCheck true => gateDiscipline true es
      | .unwrapDek => allowed && gateDiscipline allowed es
      | .decryptData => allowed && gateDiscipline allowed es
      | _ => gateDiscipline allowed es

/-- Default deed record (used only to read off the head of concrete DB
states in closed statements). -/
def emptyDeedRecord : DeedRecord :=
  ⟨"", "", [], [], [], [], []⟩

/-- Default shared_with entry for the same purpose. -/
def emptySharedWith : SharedWith :=
  ⟨"", []⟩

/-- The envelope demo run on the concrete tape. -/
def br0 : BasicRun := basicFlow ownerPassword aliPassword basicDeed g0

/-- Every byte-list field the envelope demo DB stores: the ciphertext row
and the two wrapped-DEK rows, each with nonce, ciphertext and tag. -/
def basicStoredFields : List (List Nat) :=
  [br0.encryptedDeed.iv, br0.encryptedDeed.cipher, br0.encryptedDeed.tag,
   br0.encDEKOwner.iv, br0.encDEKOwner.cipher, br0.encDEKOwner.tag,
   br0.encDEKFriend.iv, br0.encDEKFriend.cipher, br0.encDEKFriend.tag]

/-- The plaintext secrets of the envelope demo run: the raw DEK, both
derived KEKs, both passwords. -/
def basicSecrets : List (List Nat) :=
  [br0.rawDEK, br0.ownerKey, br0.friendKey, ownerPassword, aliPassword]

/-- The a.js DB state produced on the concrete tape. -/
def ajsDb0 : DB := (ajsCycle1 g0).1

/-- The shared_key field the a.js demo persists in its DB record. -/
def ajsStoredSharedKey : List Nat :=
  ((ajsDb0.deeds.headD emptyDeedRecord).shared_with.headD emptySharedWith).shared_key

/-! ## Core lemmas -/

theorem pbkdf2_length (password salt : List Nat) (iterations len : Nat) :
    (pbkdf2 password salt iterations len).length = len := by
  simp [pbkdf2]

theorem ctr_ctr (key nonce : List Nat) :
    ∀ (i : Nat) (p : List Nat), ctr key nonce i (ctr key nonce i p) = p := by
  intro i p
  induction p generalizing i with
  | nil => rfl
  | cons b bs ih =>
      simp [ctr, ih, Nat.xor_assoc, Nat.xor_self]

theorem ctr_length (key nonce : List Nat) :
    ∀ (i : Nat) (p : List Nat), (ctr key nonce i p).length = p.length := by
  intro i p
  induction p generalizing i with
  | nil => rfl
  | cons b bs ih => simp [ctr, ih]

theorem gcmTag_inj (key nonce nonce2 c c2 : List Nat)
    (h : gcmTag key nonce c = gcmTag key nonce2 c2) : nonce = nonce2 ∧ c = c2 := by
  simp only [gcmTag, List.cons.injEq] at h
  obtain ⟨-, hlen, happ⟩ := h
  exact List.append_inj happ hlen

theorem openSealed_sealCore (key nonce data : List Nat) :
    openSealed key nonce (sealCore key nonce data).1 (sealCore key nonce data).2
      = .ok data := by
  simp [openSealed, sealCore, ctr_ctr]

theorem tapeSlice_length (t : Nat → Nat) (pos n : Nat) :
    (tapeSlice t pos n).length = n := by
  simp [tapeSlice]

theorem flipBit_ne (bs : List Nat) (i j : Nat) (h : i < bs.length) :
    flipBit bs i j ≠ bs := by
  intro heq
  have h1 : (flipBit bs i j)[i]? = some ((bs.getD i 0) ^^^ 2 ^ j) := by
    simp [flipBit, List.getElem?_set_self, h]
  rw [heq] at h1
  have h2 : bs[i]? = some (bs.getD i 0) := by
    simp [List.getElem?_eq_getElem h, List.getD_eq_getElem?_getD]
  rw [h2] at h1
  have h3 : bs.getD i 0 = (bs.getD i 0) ^^^ 2 ^ j := Option.some.inj h1
  have h4 : (2 : Nat) ^ j ≠ 0 := by positivity
  have h5 : (bs.getD i 0) ^^^ (bs.getD i 0)
      = (bs.getD i 0) ^^^ ((bs.getD i 0) ^^^ 2 ^ j) := congrArg _ h3
  rw [Nat.xor_self, ← Nat.xor_assoc, Nat.xor_self, Nat.zero_xor] at h5
  exact h4 h5.symm

theorem openSealed_ne_tag (key nonce c t : List Nat) (hne : t ≠ gcmTag key nonce c) :
    openSealed key nonce c t = .error .AuthenticationFailure := by
  simp [openSealed, hne]

theorem openSealed_ne_ct (key nonce c c2 : List Nat) (hne : c2 ≠ c) :
    openSealed key nonce c2 (gcmTag key nonce c) = .error .AuthenticationFailure := by
  apply openSealed_ne_tag
  intro h
  exact hne (gcmTag_inj key nonce nonce c c2 h).2.symm

theorem openSealed_ne_nonce (key nonce n2 c : List Nat) (hne : n2 ≠ nonce) :
    openSealed key n2 c (gcmTag key nonce c) = .error .AuthenticationFailure := by
  apply openSealed_ne_tag
  intro h
  exact hne (gcmTag_inj key nonce n2 c c h).1.symm

theorem decryptAES_encryptAES (key data : List Nat) (g : RNG) :
    decryptAES key (encryptAES key data g).1 = .ok data := by
  simp [decryptAES, encryptAES, sealCore, openSealed, ctr_ctr]

theorem decrypt_encrypt (key data : List Nat) (g : RNG) :
    decrypt (encrypt data key g).1 key = .ok data := by
  simp [decrypt, encrypt, sealCore, openSealed, ctr_ctr]

/-! ## Claims -/

/-- Claim C2: for every key and every payload byte sequence, including the
empty payload, decrypting the result of encrypting that payload under that
key with the same key returns the original payload exactly — for the
spec-level seal and open pair and for both demo encrypt and decrypt pairs
(a.js encrypt and decrypt, envelope demo encryptAES and decryptAES), over
every entropy-source state. -/
theorem c2_seal_open_roundtrip (key p : List Nat) (g : RNG) :
    openSealed key (sealFresh key p g).1.nonce (sealFresh key p g).1.ct
        (sealFresh key p g).1.tag = .ok p
    ∧ decrypt (encrypt p key g).1 key = .ok p
    ∧ decryptAES key (encryptAES key p g).1 = .ok p := by
  refine ⟨?_, decrypt_encrypt key p g, decryptAES_encryptAES key p g⟩
  simp [sealFresh, sealCore, openSealed, ctr_ctr]

/-- Claim C3: in the envelope demo flow, for any passwords, deed plaintext
and entropy state, unwrapping the owner row with the owner KEK and
unwrapping the friend row with the friend KEK recover the same raw DEK
byte-for-byte (both equal the generated rawDEK), and decrypting the single
stored ciphertext with that recovered DEK yields the deed plaintext — hence
the same plaintext for either user. -/
theorem c3_cross_user_consistency (ownerPw friendPw deed : List Nat) (g : RNG) :
    ownerDEKRaw ownerPw (basicFlow ownerPw friendPw deed g)
        = .ok (basicFlow ownerPw friendPw deed g).rawDEK
    ∧ friendDEKRaw friendPw (basicFlow ownerPw friendPw deed g)
        = .ok (basicFlow ownerPw friendPw deed g).rawDEK
    ∧ decryptAES (basicFlow ownerPw friendPw deed g).rawDEK
        (basicFlow ownerPw friendPw deed g).encryptedDeed = .ok deed := by
  refine ⟨?_, ?_, ?_⟩ <;>
    simp [ownerDEKRaw, friendDEKRaw, basicFlow, decryptAES_encryptAES]

/-- Claim C6: sharing never touches the stored ciphertext: the share
operation on the store only appends a new wrapped-DEK row, and in the
envelope demo the DB state after sharing carries the identical ciphertext
row fixed at creation; likewise the a.js record persists exactly the
ciphertext and iv produced by the single creation-time encryption. -/
theorem c6_sharing_preserves_ciphertext (ownerPw friendPw deed : List Nat)
    (g : RNG) (db : DBStore) (uid : String) (row : AESOut) :
    (shareRow db uid row).ciphertext = db.ciphertext
    ∧ (shareRow db uid row).keyRows = db.keyRows ++ [(uid, row)]
    ∧ (sharedStore (basicFlow ownerPw friendPw deed g)).ciphertext
        = (createdStore (basicFlow ownerPw friendPw deed g)).ciphertext
    ∧ (sharedStore (basicFlow ownerPw friendPw deed g)).ciphertext
        = (basicFlow ownerPw friendPw deed g).encryptedDeed
    ∧ ((ajsCycle1 g).1.deeds.headD emptyDeedRecord).encrypted_data
        = (encrypt privateDeed (deriveKey userPassword none g).1.key
            (deriveKey userPassword none g).2).1.encryptedData
    ∧ ((ajsCycle1 g).1.deeds.headD emptyDeedRecord).iv
        = (encrypt privateDeed (deriveKey userPassword none g).1.key
            (deriveKey userPassword none g).2).1.iv := by
  refine ⟨rfl, rfl, rfl, rfl, ?_, ?_⟩ <;> simp [ajsCycle1]

/-- Claim C7, counterexample: the claim states that every call to the
seal/encrypt operation generates a fresh 12-byte nonce, but the a.js
encrypt draws crypto.randomBytes(16): this concrete call (the one the a.js
demo performs at creation) produces a 16-byte nonce, not a 12-byte one. -/
theorem c7_ajs_nonce_is_16_bytes :
    (encrypt privateDeed (deriveKey userPassword none g0).1.key
        (deriveKey userPassword none g0).2).1.iv.length = 16 := by
  decide

/-- Claim C7 as amended: neither encrypt function accepts a caller-supplied
nonce — each call draws its nonce internally from the entropy source,
reading the next unused stretch of the tape and advancing the cursor, so
two successive calls under the same key draw their nonces from disjoint
stretches; the envelope demo encryptAES draws 12 fresh bytes per call,
while the a.js encrypt draws 16 fresh bytes per call. -/
theorem c7_fresh_nonce_per_call (key data key2 data2 : List Nat) (g : RNG) :
    (encryptAES key data g).1.iv = tapeSlice g.tape g.pos 12
    ∧ (encryptAES key data g).1.iv.length = 12
    ∧ ((encryptAES key data g).2).pos = g.pos + 12
    ∧ (encryptAES key2 data2 (encryptAES key data g).2).1.iv
        = tapeSlice g.tape (g.pos + 12) 12
    ∧ (encrypt data key g).1.iv = tapeSlice g.tape g.pos 16
    ∧ (encrypt data key g).1.iv.length = 16
    ∧ ((encrypt data key g).2).pos = g.pos + 16 := by
  refine ⟨rfl, ?_, rfl, rfl, rfl, ?_, rfl⟩ <;> simp [encryptAES, encrypt,
    randomBytes, tapeSlice_length]

/-- Claim C8: key derivation is deterministic — any two invocations of the
derivation on identical credential, salt and iteration count yield the same
256-bit (32-byte) key; the same holds for the a.js deriveKey path with its
fixed iteration count. -/
theorem c8_derivation_deterministic (ca cb sa sb : List Nat) (ia ib : Nat)
    (hc : ca = cb) (hs : sa = sb) (hi : ia = ib) :
    deriveKEK ca sa ia = deriveKEK cb sb ib
    ∧ (deriveKEK ca sa ia).length = 32
    ∧ deriveKeyWithSalt ca sa = deriveKeyWithSalt cb sb := by
  subst hc hs hi
  exact ⟨rfl, pbkdf2_length ca sa ia 32, rfl⟩

/-- Claim C8, witness: the determinism test vector — credential
"userPassword123!", a fixed 16-byte salt, 100000 iterations — derived
twice yields the identical 256-bit output. -/
theorem c8_derivation_deterministic_witness :
    deriveKEK (strBytes "userPassword123!") salt16 100000
        = deriveKEK (strBytes "userPassword123!") salt16 100000
    ∧ (deriveKEK (strBytes "userPassword123!") salt16 100000).length = 32
    ∧ deriveKeyWithSalt (strBytes "userPassword123!") salt16
        = deriveKeyWithSalt (strBytes "userPassword123!") salt16 :=
  c8_derivation_deterministic (strBytes "userPassword123!")
    (strBytes "userPassword123!") salt16 salt16 100000 100000 rfl rfl rfl

/-- Claim C9, counterexample: the claim states that a call whose salt is
not exactly 16 bytes fails with InvalidSalt and returns no key; but a.js
deriveKey performs no validation at all — called with the concrete 8-byte
salt it succeeds and returns a full 32-byte key (its result type has no
failure case whatsoever). -/
theorem c9_accepts_8_byte_salt :
    salt8.length = 8
    ∧ (deriveKey userPassword (some salt8) g0).1.key.length = 32
    ∧ (deriveKey userPassword (some salt8) g0).1.salt = salt8 :=
  ⟨by decide, by decide, by decide⟩

/-- Claim C9 as amended: the key-derivation operation of the code performs
no salt-length and no iteration-count validation: for every password and
every salt of any length it succeeds and returns a 32-byte key (the
iteration count is fixed at 100000 and not a parameter), and when no salt
is supplied it draws a fresh random 16-byte salt; the InvalidSalt and
InvalidIterationCount failures of the spec do not exist in the code. -/
theorem c9_no_validation_in_deriveKey (pw s : List Nat) (g : RNG) :
    (deriveKey pw (some s) g).1.key.length = 32
    ∧ (deriveKey pw (some s) g).1.salt = s
    ∧ (deriveKey pw none g).1.salt.length = 16
    ∧ (deriveKey pw none g).1.key.length = 32 := by
  refine ⟨?_, rfl, ?_, ?_⟩ <;> simp [deriveKey, deriveKeyWithSalt,
    randomBytes, pbkdf2_length, tapeSlice_length]

/-- Claim C10: the plaintext the friend recovers in a.js cycle 2 is fully
determined by the stored deed record — for any two runs over DB states
holding the same records and differing only in the friend credential, the
friend obtains the same result, because the credential is never used in the
decryption path (cycle 2 is also literally the record-only function
friendDecrypted). -/
theorem c10_friend_plaintext_ignores_password (fa fb : List Nat) (da db2 : DB)
    (h : da.deeds = db2.deeds) :
    ajsCycle2 fa da = ajsCycle2 fb db2
    ∧ ajsCycle2 fa da = friendDecrypted da := by
  cases da with
  | mk ds =>
      cases db2 with
      | mk ds2 =>
          cases h
          exact ⟨rfl, rfl⟩

/-- Claim C10, witness: on the concrete DB produced by cycle 1, the
friend obtains the same plaintext whether the friend credential is the
demo password or a different one. -/
theorem c10_friend_plaintext_ignores_password_witness :
    ajsCycle2 friendPassword ajsDb0 = ajsCycle2 (strBytes "otherPass!") ajsDb0
    ∧ ajsCycle2 friendPassword ajsDb0 = friendDecrypted ajsDb0 :=
  c10_friend_plaintext_ignores_password friendPassword (strBytes "otherPass!")
    ajsDb0 ajsDb0 rfl

/-- Claim C1, counterexample: the claim states that no plaintext KEK is
ever held at rest and every stored key is wrapped; but the a.js demo DB
record persists the derived symmetric key itself, unwrapped, in its
shared_with row (the source marks it dummy): on the concrete run, the
stored shared_key field is byte-for-byte the KEK derived from the user
password. -/
theorem c1_ajs_persists_plaintext_kek :
    ajsStoredSharedKey = (deriveKey userPassword none g0).1.key := by
  decide

/-- Claim C1 as amended: in the envelope demo the persistent store is the
zero-knowledge one the claim describes — on the concrete run, none of the
nine stored byte fields (ciphertext row and both wrapped-DEK rows, each
with nonce, ciphertext and tag) equals the raw DEK, either derived KEK, or
either password; the a.js demo, by contrast, persists the derived KEK in
plaintext in its shared_with row. -/
theorem c1_envelope_store_holds_no_plaintext_keys :
    basicStoredFields.all (fun s => basicSecrets.all (fun x => s != x)) = true := by
  decide

/-- Claim C4: for every sealed output and every single-bit modification of
the ciphertext, the tag, or the nonce, the open operation fails with
AuthenticationFailure and returns no plaintext at all. -/
theorem c4_tamper_detection (key p : List Nat) (g : RNG) :
    (∀ i j, i < (sealFresh key p g).1.ct.length → j < 8 →
        openSealed key (sealFresh key p g).1.nonce
            (flipBit (sealFresh key p g).1.ct i j) (sealFresh key p g).1.tag
          = .error .AuthenticationFailure)
    ∧ (∀ i j, i < (sealFresh key p g).1.tag.length → j < 8 →
        openSealed key (sealFresh key p g).1.nonce (sealFresh key p g).1.ct
            (flipBit (sealFresh key p g).1.tag i j)
          = .error .AuthenticationFailure)
    ∧ (∀ i j, i < (sealFresh key p g).1.nonce.length → j < 8 →
        openSealed key (flipBit (sealFresh key p g).1.nonce i j)
            (sealFresh key p g).1.ct (sealFresh key p g).1.tag
          = .error .AuthenticationFailure) := by
  have htag : (sealFresh key p g).1.tag
      = gcmTag key (sealFresh key p g).1.nonce (sealFresh key p g).1.ct := rfl
  refine ⟨?_, ?_, ?_⟩
  · intro i j hi _
    rw [htag]
    exact openSealed_ne_ct key (sealFresh key p g).1.nonce
      (sealFresh key p g).1.ct (flipBit (sealFresh key p g).1.ct i j)
      (flipBit_ne (sealFresh key p g).1.ct i j hi)
  · intro i j hi _
    exact openSealed_ne_tag key (sealFresh key p g).1.nonce
      (sealFresh key p g).1.ct (flipBit (sealFresh key p g).1.tag i j)
      (htag ▸ flipBit_ne (sealFresh key p g).1.tag i j hi)
  · intro i j hi _
    rw [htag]
    exact openSealed_ne_nonce key (sealFresh key p g).1.nonce
      (flipBit (sealFresh key p g).1.nonce i j) (sealFresh key p g).1.ct
      (flipBit_ne (sealFresh key p g).1.nonce i j hi)

/-- Claim C4, witness: on a concrete sealed output, flipping bit 0 of byte
0 of the ciphertext, of the tag, and of the nonce each makes open fail with
AuthenticationFailure. -/
theorem c4_tamper_detection_witness :
    (0 < (sealFresh [1] [5, 6] g0).1.ct.length ∧ (0 : Nat) < 8
      ∧ openSealed [1] (sealFresh [1] [5, 6] g0).1.nonce
          (flipBit (sealFresh [1] [5, 6] g0).1.ct 0 0)
          (sealFresh [1] [5, 6] g0).1.tag = .error .AuthenticationFailure)
    ∧ (0 < (sealFresh [1] [5, 6] g0).1.tag.length
      ∧ openSealed [1] (sealFresh [1] [5, 6] g0).1.nonce
          (sealFresh [1] [5, 6] g0).1.ct
          (flipBit (sealFresh [1] [5, 6] g0).1.tag 0 0)
        = .error .AuthenticationFailure)
    ∧ (0 < (sealFresh [1] [5, 6] g0).1.nonce.length
      ∧ openSealed [1] (flipBit (sealFresh [1] [5, 6] g0).1.nonce 0 0)
          (sealFresh [1] [5, 6] g0).1.ct (sealFresh [1] [5, 6] g0).1.tag
        = .error .AuthenticationFailure) :=
  ⟨⟨by decide, by decide,
      (c4_tamper_detection [1] [5, 6] g0).1 0 0 (by decide) (by decide)⟩,
   ⟨by decide,
      (c4_tamper_detection [1] [5, 6] g0).2.1 0 0 (by decide) (by decide)⟩,
   ⟨by decide,
      (c4_tamper_detection [1] [5, 6] g0).2.2 0 0 (by decide) (by decide)⟩⟩

/-- Claim C5, counterexample: the claim states that no decryption of
stored material is ever invoked before the access-control gate has returned
Allow; but the a.js read flow (cycle 2) violates the gate discipline on the
concrete run — its trace performs a decryption and contains no gate
consultation at all. -/
theorem c5_ajs_read_flow_skips_gate :
    gateDiscipline false (ajsFriendFlow ajsDb0).2 = false
    ∧ (ajsFriendFlow ajsDb0).2.any isDecrypting = true
    ∧ (ajsFriendFlow ajsDb0).2.all (fun e => !(isAllow e)) = true :=
  ⟨by decide, by decide, by decide⟩

/-- Claim C5 as amended: the gated read flow of the strategy document,
get_friend_deed_key, satisfies the claim: for every permission state,
credential and key-row state, every unwrap in its trace happens strictly
after the permission check has passed (gate discipline holds), and when the
permission check fails the flow stops with an error before any key is
derived or any unwrap attempted; the a.js demo read flow, by contrast,
decrypts without consulting any gate. -/
theorem c5_strategy_gate_before_unwrap (perm : Option Unit)
    (friendSalt friendPw : List Nat) (keyRecord : Option EncKeyRecord) :
    gateDiscipline false (get_friend_deed_key perm friendSalt friendPw keyRecord).2
        = true
    ∧ (perm = none →
        (get_friend_deed_key perm friendSalt friendPw keyRecord).1
            = .error .PermissionDenied
        ∧ (get_friend_deed_key perm friendSalt friendPw keyRecord).2.all
            (fun e => !(isDecrypting e)) = true) := by
  cases perm with
  | none => exact ⟨rfl, fun _ => ⟨rfl, rfl⟩⟩
  | some u =>
      cases keyRecord with
      | none => exact ⟨rfl, fun h => by cases h⟩
      | some kr => exact ⟨rfl, fun h => by cases h⟩

/-- Claim C5, witness: with no permission present, the gated flow keeps
gate discipline, returns PermissionDenied, and performs no decryption. -/
theorem c5_strategy_gate_before_unwrap_witness :
    gateDiscipline false (get_friend_deed_key none [] [] none).2 = true
    ∧ (get_friend_deed_key none [] [] none).1 = .error .PermissionDenied
    ∧ (get_friend_deed_key none [] [] none).2.all
        (fun e => !(isDecrypting e)) = true :=
  ⟨(c5_strategy_gate_before_unwrap none [] [] none).1,
   ((c5_strategy_gate_before_unwrap none [] [] none).2 rfl).1,
   ((c5_strategy_gate_before_unwrap none [] [] none).2 rfl).2⟩

end Db2
